import Mathlib

/-!
Verification development for the YouTube outlier-detector app (`app.py`).

The program is a single Python/Streamlit script.  Its core consists of
 * `compute_outlier_scores`  — Modified Z-Score scoring over a batch of videos,
 * `save_to_db` / `search_db_results` — a SQLite-backed result store,
 * `needs_refresh`           — the staleness policy,
plus in-memory filter/sort glue in the fetch-button handler.

Shallow embedding conventions used throughout this file:
 * Python lists of dicts become `List Video` with a fixed record of the fields
   the program reads or writes; integers are `Nat`, float quantities are `ℚ`
   (exact rational arithmetic stands in for IEEE doubles; all concrete values
   used in theorems are far from any representation boundary).
 * The SQLite table is a `Db`: a schema (list of column names, as created by
   `initialize_db`) plus a list of rows.  Executing a query whose SQL text
   references a column absent from the schema is a `sqlite3.Error`, modelled
   as `Except.error`; `search_db_results` catches it and returns `[]`,
   exactly as the `try/except sqlite3.Error` in the source does.
 * Timestamps are rational numbers of seconds.  `datetime.fromisoformat`'s
   fallibility is modelled by `Option (Option ℚ)` on cache items:
   `none` = key missing, `some none` = unparseable, `some (some t)` = parsed.
 * Python `str.lower` / SQLite `LOWER` are `Char.toLower` over the char list
   (the ASCII fragment, which is where the two agree); Python's substring
   test `a in b` and SQLite `LIKE '%a%'` (for wildcard-free `a`) are the
   `subList` function below.
-/

unseal Rat.ofScientific Rat.mul Rat.inv Rat.add Rat.sub

/-- Python `b.startswith-style check: `pat` is a leading segment of the list. -/
def leadsWith : List Char → List Char → Bool
  | [], _ => true
  | _ :: _, [] => false
  | a :: as, b :: bs => a == b && leadsWith as bs

/-- Python `pat in hay` on strings / SQLite `LIKE '%pat%'` for a wildcard-free
`pat`: contiguous-substring test on char lists. -/
def subList (pat : List Char) : List Char → Bool
  | [] => pat.isEmpty
  | c :: cs => leadsWith pat (c :: cs) || subList pat cs

/-- Python `s.lower()` (ASCII fragment, which also matches SQLite `LOWER`). -/
def pyLower (l : List Char) : List Char := l.map Char.toLower

/-- Pure-ASCII text.  On ASCII text Python's Unicode `str.lower()` and
SQLite's ASCII-only `LOWER` agree (both are `Char.toLower` here); outside it
they diverge (e.g. Python lowers `'É'`, SQLite does not, and some non-ASCII
characters even lower *into* ASCII).  Quantified statements comparing the
two lowerings are therefore restricted to this fragment. -/
def asciiOnly (l : List Char) : Prop := ∀ c ∈ l, c.toNat < 128

/-- Free of the SQLite `LIKE` wildcards `%` and `_`.  For a wildcard-free
pattern, `LIKE '%pat%'` is exactly the contiguous-substring test `subList`;
a `%` or `_` inside the bound term would instead act as a wildcard.
Quantified statements about the keyword conditions are restricted to
wildcard-free terms, where the `subList` model is exact. -/
def wildcardFree (l : List Char) : Prop :=
  ∀ c ∈ l, c ≠ '%' ∧ c ≠ '_'

instance (l : List Char) : Decidable (asciiOnly l) := by
  unfold asciiOnly; infer_instance

instance (l : List Char) : Decidable (wildcardFree l) := by
  unfold wildcardFree; infer_instance

def isWs (c : Char) : Bool := c.isWhitespace

/-- Python `s.strip()`: drop leading and trailing whitespace. -/
def pyStrip (l : List Char) : List Char :=
  ((l.dropWhile isWs).reverse.dropWhile isWs).reverse

/-- Worker for `pySplit`: accumulates the current (reversed) token. -/
def pySplitGo : List Char → List Char → List (List Char)
  | acc, [] => if acc.isEmpty then [] else [acc.reverse]
  | acc, c :: cs =>
    if isWs c then
      if acc.isEmpty then pySplitGo [] cs else acc.reverse :: pySplitGo [] cs
    else
      pySplitGo (c :: acc) cs

/-- Python `s.split()` with no argument: split on whitespace runs, no empty
tokens. -/
def pySplit (l : List Char) : List (List Char) := pySplitGo [] l

/-- `app.py:134`: `search_terms = keyword.strip().lower().split()`. -/
def keywordTokens (kw : String) : List (List Char) :=
  pySplit (pyLower (pyStrip kw.data))

/-- `app.py:133`: the guard `if keyword and keyword.strip():` — the keyword
filter is only built when the keyword is a non-empty, not-all-whitespace
string (Python `None` and `""` are both falsy and behave identically here). -/
def kwActive (kw : String) : Bool :=
  !kw.data.isEmpty && !(pyStrip kw.data).isEmpty

/-- A video record, covering every key the program reads or writes on the
video dicts / DB rows (`views`, `likes`, `comments` are the non-negative
counters; `fetch_date` is a timestamp in seconds; `duration` mirrors the
`duration` column that `search_db_results` references). -/
structure Video where
  video_id : String
  channel_id : String
  channel_name : String
  title : String
  description : String
  thumbnail : String
  published_date : String
  fetch_date : ℚ
  views : ℕ
  likes : ℕ
  comments : ℕ
  outlier_score : ℚ
  duration : ℚ
deriving DecidableEq

def defVid : Video :=
  ⟨"", "", "", "", "", "", "", 0, 0, 0, 0, 0, 0⟩

/-- A video with the given id and view count and default remaining fields. -/
def mkVid (i : String) (vw : ℕ) : Video :=
  { defVid with video_id := i, views := vw }

/-- The metric key passed to `compute_outlier_scores` (the UI always passes
`"views"`; the code reads `video.get(metric, 0)` for these counter keys). -/
inductive Metric where
  | views
  | likes
  | comments
deriving DecidableEq

def metricValue (v : Video) : Metric → ℕ
  | Metric.views => v.views
  | Metric.likes => v.likes
  | Metric.comments => v.comments

/-- `np.median`: sort ascending; middle element for odd length, mean of the
two middle elements for even length (0 for the empty list, which the program
never reaches: it is guarded by the `len(values) < 2` check). -/
def median (l : List ℚ) : ℚ :=
  if l.length = 0 then 0
  else if l.length % 2 = 1 then
    (List.insertionSort (fun a b => a ≤ b) l).getD (l.length / 2) 0
  else
    ((List.insertionSort (fun a b => a ≤ b) l).getD (l.length / 2 - 1) 0
      + (List.insertionSort (fun a b => a ≤ b) l).getD (l.length / 2) 0) / 2

/-- Python `round(x)` to an integer: round half to even (banker's rounding). -/
def roundHalfEven (q : ℚ) : ℤ :=
  if q - Int.floor q < 1/2 then Int.floor q
  else if 1/2 < q - Int.floor q then Int.floor q + 1
  else if Int.floor q % 2 = 0 then Int.floor q else Int.floor q + 1

/-- Python `round(x, 2)`: round to 2 decimal places, half to even. -/
def round2 (q : ℚ) : ℚ := (roundHalfEven (q * 100) : ℚ) / 100

/-- `app.py:240`: `values = np.array([video.get(metric, 0) for video in videos])`. -/
def metricValues (videos : List Video) (m : Metric) : List ℚ :=
  videos.map (fun v => (metricValue v m : ℚ))

/-- `app.py:245`: `median_value = np.median(values)`. -/
def medOf (videos : List Video) (m : Metric) : ℚ :=
  median (metricValues videos m)

/-- `app.py:246`: `mad = median_abs_deviation(values)` — scipy's default
`center=np.median, scale=1.0`, i.e. the median of absolute deviations from
the median. -/
def madOf (videos : List Video) (m : Metric) : ℚ :=
  median ((metricValues videos m).map (fun x => |x - medOf videos m|))

/-- `app.py:236-254` `compute_outlier_scores`: Modified Z-Score
`0.6745 * (value - median) / MAD`, rounded to 2 decimals; every score is 0
for batches of size < 2 or when the MAD is 0; the empty batch is returned
unchanged. -/
def compute_outlier_scores (videos : List Video) (m : Metric) : List Video :=
  if videos.isEmpty then videos
  else if (metricValues videos m).length < 2 then
    videos.map (fun v => { v with outlier_score := 0 })
  else if madOf videos m = 0 then
    videos.map (fun v => { v with outlier_score := 0 })
  else
    videos.map (fun v =>
      { v with outlier_score :=
          round2 (0.6745 * ((metricValue v m : ℚ) - medOf videos m) / madOf videos m) })

/-- Forget the `outlier_score` field (used to state the frame property). -/
def stripScore (v : Video) : Video := { v with outlier_score := 0 }

/-- One `{channel_id, channel_name}` entry of the niche config. -/
structure Channel where
  channel_id : String
  channel_name : String
deriving DecidableEq

/-- The `video_type` argument of `search_db_results` (`"short"`/`"long"`). -/
inductive VideoType where
  | short
  | long
deriving DecidableEq

/-- The data of the SQL query `search_db_results` builds: the channel-id `IN`
set (if a niche filter applies), the lowered keyword tokens, the minimum
outlier score, and the duration class. -/
structure Query where
  chanIds : Option (List String)
  kwTokens : List (List Char)
  minScore : Option ℚ
  videoType : Option VideoType
deriving DecidableEq

/-- The SQLite database: column names of `search_results` plus its rows. -/
structure Db where
  schema : List String
  rows : List Video
deriving DecidableEq

/-- `app.py:46-62` `initialize_db`: the columns of `search_results` as
created on a fresh database (note: there is no `duration` column, and the
migration loop in the `else` branch adds none either). -/
def initSchema : List String :=
  ["id", "video_id", "channel_id", "channel_name", "title", "description",
   "thumbnail", "published_date", "fetch_date", "views", "likes", "comments",
   "outlier_score"]

/-- A freshly initialized database (`initialize_db` on a missing file). -/
def initDb : Db := ⟨initSchema, []⟩

/-- `app.py:112-116`: the column list of the `SELECT` in `search_db_results`
(it includes `duration`). -/
def selectCols : List String :=
  ["video_id", "channel_id", "channel_name", "title", "description",
   "thumbnail", "published_date", "fetch_date", "views", "likes", "comments",
   "outlier_score", "duration"]

/-- `app.py:121-130`: the niche/channel part of the query.  Result `none`
means the early `return []` (all channels of the niche excluded); `some cs`
means proceed with channel-id set `cs` (`some none`: no channel condition). -/
def channelSel (niche : Option String) (nicheData : List (String × List Channel))
    (excluded : List String) : Option (Option (List String)) :=
  match niche with
  | none => some none
  | some n =>
    if n.data.isEmpty then some none
    else
      match nicheData.lookup n with
      | none => some none
      | some chans =>
        let ids := (chans.filter
          (fun c => excluded.isEmpty || !(decide (c.channel_id ∈ excluded)))).map
          (fun c => c.channel_id)
        if ids.isEmpty then none else some (some ids)

/-- `app.py:118-152`: assemble the query; `none` is the early `return []`. -/
def buildQuery (niche : Option String) (keyword : String) (minScore : Option ℚ)
    (nicheData : List (String × List Channel)) (excluded : List String)
    (videoType : Option VideoType) : Option Query :=
  match channelSel niche nicheData excluded with
  | none => none
  | some chanIds =>
    some ⟨chanIds, if kwActive keyword then keywordTokens keyword else [],
          minScore, videoType⟩

/-- The columns referenced by the WHERE clauses of the assembled query. -/
def whereColsOf (q : Query) : List String :=
  (match q.chanIds with
   | none => []
   | some _ => ["channel_id"]) ++
  (if q.kwTokens.isEmpty then [] else ["title", "description"]) ++
  (match q.minScore with
   | none => []
   | some _ => ["outlier_score"]) ++
  (match q.videoType with
   | none => []
   | some _ => ["duration"])

/-- The semantics of the WHERE clause of `app.py:121-155` on one row.  The
keyword condition `LOWER(title) LIKE '%term%' OR LOWER(description) LIKE
'%term%'` is modelled as the literal substring test `subList` on
`Char.toLower`-lowered text.  That model is exact precisely for
`wildcardFree` terms (a `%` or `_` in the bound term would act as a LIKE
wildcard) on `asciiOnly` text (SQLite's `LOWER` folds only ASCII); every
theorem below applies this predicate either at concrete wildcard-free ASCII
tokens or under explicit `asciiOnly`/`wildcardFree` hypotheses. -/
def wherePred (q : Query) (r : Video) : Bool :=
  (match q.chanIds with
   | none => true
   | some ids => decide (r.channel_id ∈ ids)) &&
  (q.kwTokens.all (fun t =>
    subList t (pyLower r.title.data) || subList t (pyLower r.description.data))) &&
  (match q.minScore with
   | none => true
   | some ms => decide (ms ≤ r.outlier_score)) &&
  (match q.videoType with
   | none => true
   | some VideoType.short => decide (r.duration ≤ 180)
   | some VideoType.long => decide ((180 : ℚ) < r.duration))

/-- `ORDER BY {sort_by} DESC` key for the numeric sort columns the UI offers
(`views`, `outlier_score`, `likes`, `comments`). -/
def sortKeyVal (v : Video) (k : String) : ℚ :=
  if k = "views" then (v.views : ℚ)
  else if k = "likes" then (v.likes : ℚ)
  else if k = "comments" then (v.comments : ℚ)
  else if k = "outlier_score" then v.outlier_score
  else 0

/-- Key order of a Python dict comprehension: first occurrence of each key. -/
def firstKeys (ks : List String) : List String :=
  ks.foldl (fun acc k => if acc.contains k then acc else acc ++ [k]) []

/-- `app.py:167`: `{video["video_id"]: video for video in result_list}.values()`
— one row per `video_id`, positioned at the first occurrence of the id and
carrying the last row with that id. -/
def dedupRows (rs : List Video) : List Video :=
  (firstKeys (rs.map (fun r => r.video_id))).filterMap
    (fun k => (rs.filter (fun r => r.video_id == k)).getLast?)

/-- All columns the final SQL text references: the SELECT list, the WHERE
columns, and the ORDER BY column when `sort_by` is non-empty (`if sort_by:`). -/
def refColsOf (q : Query) (sortBy : String) : List String :=
  selectCols ++ whereColsOf q ++ (if sortBy = "" then [] else [sortBy])

/-- The row set the query would produce: filter by the WHERE clause, sort
descending by the sort column (when one is given), then de-duplicate
(`app.py:163-167`). -/
def runSelect (db : Db) (q : Query) (sortBy : String) : List Video :=
  dedupRows (if sortBy = "" then db.rows.filter (wherePred q)
    else List.insertionSort (fun a b => sortKeyVal b sortBy ≤ sortKeyVal a sortBy)
      (db.rows.filter (wherePred q)))

/-- `app.py:160-167`: prepare and run the final SQL.  SQLite refuses a query
that references a column absent from the schema (`sqlite3.OperationalError`,
a `sqlite3.Error`), modelled as `Except.error`. -/
def execQuery (db : Db) (q : Query) (sortBy : String) :
    Except String (List Video) :=
  match (refColsOf q sortBy).find? (fun c => !db.schema.contains c) with
  | some c => Except.error ("no such column: " ++ c)
  | none => Except.ok (runSelect db q sortBy)

/-- `app.py:105-173` `search_db_results`: build the query (possibly returning
`[]` early when every channel of the niche is excluded), execute it, and
return `[]` on any `sqlite3.Error`. -/
def search_db_results (db : Db) (niche : Option String) (keyword : String)
    (minScore : Option ℚ) (sortBy : String)
    (nicheData : List (String × List Channel)) (excluded : List String)
    (videoType : Option VideoType) : List Video :=
  match buildQuery niche keyword minScore nicheData excluded videoType with
  | none => []
  | some q =>
    match execQuery db q sortBy with
    | Except.error _ => []
    | Except.ok rows => rows

/-- The row written by one `INSERT OR REPLACE` of `app.py:199-217`: every
field is taken from the video dict (with the `.get` defaults), and
`fetch_date` is set to the current time.  The table has no `duration`
column, so the stored row's `duration` is the field's default 0. -/
def rowOf (v : Video) (now : ℚ) : Video :=
  { v with fetch_date := now, duration := 0 }

/-- `app.py:191-221` `save_to_db`: no-op on an empty list, otherwise one
`INSERT OR REPLACE` per video in order (`video_id` is UNIQUE, so a conflicting
row is replaced), all with the same `current_date` timestamp. -/
def save_to_db (db : Db) (videoData : List Video) (now : ℚ) : Db :=
  if videoData.isEmpty then db
  else
    ⟨db.schema,
     videoData.foldl
       (fun rs v => rs.filter (fun r => r.video_id ≠ v.video_id) ++ [rowOf v now])
       db.rows⟩

/-- `app.py:640-646`: the in-memory post-fetch filter — the whole keyword
(lowered, not tokenized) must be a substring of the lowered title or
description, and the score must reach the threshold.  Python's `str.lower()`
is Unicode case folding; `pyLower` models its ASCII fragment, which is exact
on `asciiOnly` text (and coincides with SQLite's `LOWER` only there) —
quantified comparisons with the store predicate carry explicit `asciiOnly`
hypotheses for that reason. -/
def memPred (keyword : String) (threshold : ℚ) (v : Video) : Bool :=
  (keyword.data.isEmpty
    || subList (pyLower keyword.data) (pyLower v.title.data)
    || subList (pyLower keyword.data) (pyLower v.description.data))
  && decide (threshold ≤ v.outlier_score)

/-- `app.py:640-653`: the in-memory path on a cache miss — filter the fresh
batch, de-duplicate by `video_id`, and sort descending by the sort key. -/
def memFilterSortPath (allVideos : List Video) (keyword : String)
    (threshold : ℚ) (sortKey : String) : List Video :=
  List.insertionSort (fun a b => sortKeyVal b sortKey ≤ sortKeyVal a sortKey)
    (dedupRows (allVideos.filter (memPred keyword threshold)))

/-- A queried row as seen by `needs_refresh`: only `fetch_date` matters.
`none` = the dict has no `fetch_date` key; `some none` = the value does not
parse as an ISO timestamp; `some (some t)` = it parses to time `t` (seconds). -/
structure CacheItem where
  fetch_date : Option (Option ℚ)
deriving DecidableEq

/-- `app.py:331-346` `needs_refresh`: stale when the batch is empty, or some
item's `fetch_date` is missing or unparseable, or some item's age in whole
days (`timedelta.days`, i.e. the floor of the difference in days) exceeds
`max_age_days`. -/
def needs_refresh (now : ℚ) (data : List CacheItem) (maxAgeDays : ℤ) : Bool :=
  if data.isEmpty then true
  else data.any (fun item =>
    match item.fetch_date with
    | none => true
    | some none => true
    | some (some t) => decide (maxAgeDays < Int.floor ((now - t) / 86400)))

/-! ### Concrete fixtures used in the closed theorems -/

/-- The spec's worked scoring example: views 1000, 2000, 1000000. -/
def batchABC : List Video :=
  [mkVid "A" 1000, mkVid "B" 2000, mkVid "C" 1000000]

/-- A batch whose median (1000.5) is straddled by values 1000 and 1001 while
the MAD is large (500), so both middle scores round to 0. -/
def batchWXYZ : List Video :=
  [mkVid "w" 0, mkVid "x" 1000, mkVid "y" 1001, mkVid "z" 2000]

/-- A batch with one value strictly above and one at the median. -/
def batchPQR : List Video :=
  [mkVid "p" 0, mkVid "q" 1000, mkVid "r" 2000]

/-- A concrete snapshot for the round-trip scenario. -/
def vA : Video :=
  { defVid with video_id := "A", channel_id := "c1", channel_name := "Chan One",
                title := "First video", views := 100 }

/-- Title containing both tokens of the keyword "cat video". -/
def vCatVideo : Video :=
  { defVid with video_id := "V1", title := "My Cat Video Compilation", views := 10 }

/-- Title containing only the token "cat". -/
def vCatOnly : Video :=
  { defVid with video_id := "V2", title := "My Cat Compilation", views := 20 }

/-- A niche mapping with two channels, for the all-excluded scenario. -/
def nd10 : List (String × List Channel) :=
  [("tech", [⟨"c1", "Chan One"⟩, ⟨"c2", "Chan Two"⟩])]

/-- A store that already holds a row (its contents must not matter). -/
def db10 : Db := ⟨initSchema, [rowOf vA 3]⟩

/-! ### Helper lemmas -/

theorem getD_mem {l : List ℚ} {i : ℕ} (h : i < l.length) (d : ℚ) :
    l.getD i d ∈ l := by
  rw [List.getD_eq_getElem?_getD, List.getElem?_eq_getElem h]
  exact List.getElem_mem h

theorem insertionSort_length (l : List ℚ) :
    (List.insertionSort (fun a b => a ≤ b) l).length = l.length :=
  (List.perm_insertionSort (fun a b => a ≤ b) l).length_eq

theorem insertionSort_getD_mem {l : List ℚ} {i : ℕ} (h : i < l.length) (d : ℚ) :
    (List.insertionSort (fun a b => a ≤ b) l).getD i d ∈ l :=
  (List.perm_insertionSort (fun a b => a ≤ b) l).mem_iff.mp
    (getD_mem (by rw [insertionSort_length]; exact h) d)

theorem median_const {l : List ℚ} {c : ℚ} (hne : l ≠ []) (h : ∀ x ∈ l, x = c) :
    median l = c := by
  have h0 : l.length ≠ 0 := fun h0 => hne (List.length_eq_zero.mp h0)
  have hpos : 0 < l.length := Nat.pos_of_ne_zero h0
  rw [median, if_neg h0]
  by_cases hp : l.length % 2 = 1
  · rw [if_pos hp]
    exact h _ (insertionSort_getD_mem (Nat.div_lt_self hpos one_lt_two) 0)
  · rw [if_neg hp]
    rw [h _ (insertionSort_getD_mem (lt_of_le_of_lt (Nat.sub_le _ _)
          (Nat.div_lt_self hpos one_lt_two)) 0),
        h _ (insertionSort_getD_mem (Nat.div_lt_self hpos one_lt_two) 0)]
    ring

theorem median_nonneg {l : List ℚ} (h : ∀ x ∈ l, 0 ≤ x) : 0 ≤ median l := by
  rw [median]
  by_cases h0 : l.length = 0
  · rw [if_pos h0]
  · rw [if_neg h0]
    have hpos : 0 < l.length := Nat.pos_of_ne_zero h0
    by_cases hp : l.length % 2 = 1
    · rw [if_pos hp]
      exact h _ (insertionSort_getD_mem (Nat.div_lt_self hpos one_lt_two) 0)
    · rw [if_neg hp]
      have hidx : l.length / 2 - 1 < l.length :=
        lt_of_le_of_lt (Nat.sub_le (l.length / 2) 1) (Nat.div_lt_self hpos one_lt_two)
      have h1 := h _ (insertionSort_getD_mem hidx 0)
      have h2 := h _ (insertionSort_getD_mem (Nat.div_lt_self hpos one_lt_two) 0)
      have := add_nonneg h1 h2
      linarith

theorem roundHalfEven_nonneg {q : ℚ} (h : 0 ≤ q) : 0 ≤ roundHalfEven q := by
  have hf : 0 ≤ Int.floor q := Int.floor_nonneg.mpr h
  rw [roundHalfEven]
  split_ifs <;> omega

theorem roundHalfEven_nonpos {q : ℚ} (h : q ≤ 0) : roundHalfEven q ≤ 0 := by
  have hf : Int.floor q ≤ 0 := Int.floor_nonpos h
  have hup : (Int.floor q : ℚ) ≤ q := Int.floor_le q
  rw [roundHalfEven]
  split_ifs with h1 h2 h3
  · exact hf
  · have hge : (1 : ℚ)/2 ≤ q - Int.floor q := not_lt.mp h1
    have : (Int.floor q : ℚ) < 0 := by linarith
    have : Int.floor q < 0 := by exact_mod_cast this
    omega
  · exact hf
  · have hge : (1 : ℚ)/2 ≤ q - Int.floor q := not_lt.mp h1
    have : (Int.floor q : ℚ) < 0 := by linarith
    have : Int.floor q < 0 := by exact_mod_cast this
    omega

theorem round2_nonneg {q : ℚ} (h : 0 ≤ q) : 0 ≤ round2 q := by
  rw [round2]
  have : (0 : ℚ) ≤ (roundHalfEven (q * 100) : ℚ) := by
    exact_mod_cast roundHalfEven_nonneg (mul_nonneg h (by norm_num))
  positivity

theorem round2_nonpos {q : ℚ} (h : q ≤ 0) : round2 q ≤ 0 := by
  rw [round2]
  have hx : (roundHalfEven (q * 100) : ℚ) ≤ 0 := by
    exact_mod_cast roundHalfEven_nonpos (mul_nonpos_of_nonpos_of_nonneg h (by norm_num))
  have h100 : (0 : ℚ) < 100 := by norm_num
  exact div_nonpos_iff.mpr (Or.inr ⟨hx, le_of_lt h100⟩)

theorem getD_map_video {l : List Video} {f : Video → Video} {i : ℕ}
    (h : i < l.length) :
    (l.map f).getD i defVid = f (l.getD i defVid) := by
  have h2 : i < (l.map f).length := by rw [List.length_map]; exact h
  rw [List.getD_eq_getElem?_getD, List.getElem?_eq_getElem h2,
      List.getD_eq_getElem?_getD, List.getElem?_eq_getElem h]
  simp [List.getElem_map]

theorem compute_eq_map {videos : List Video} {m : Metric} (h2 : 2 ≤ videos.length)
    (hmad : madOf videos m ≠ 0) :
    compute_outlier_scores videos m = videos.map (fun v =>
      { v with outlier_score :=
          round2 (0.6745 * ((metricValue v m : ℚ) - medOf videos m) / madOf videos m) }) := by
  have hne : videos.isEmpty = false := by
    cases videos with
    | nil => exact absurd h2 (by norm_num)
    | cons a l => rfl
  have hlen : ¬ (metricValues videos m).length < 2 := by
    rw [metricValues, List.length_map]; omega
  rw [compute_outlier_scores, hne]
  simp only [Bool.false_eq_true, if_false, if_neg hlen, if_neg hmad]

theorem find?_append_left {α : Type} {p : α → Bool} {l₁ l₂ : List α} {a : α}
    (h : l₁.find? p = some a) : (l₁ ++ l₂).find? p = some a := by
  rw [List.find?_append, h]; rfl

theorem execQuery_duration {db : Db} (h : db.schema = initSchema)
    (q : Query) (sortBy : String) :
    execQuery db q sortBy = Except.error "no such column: duration" := by
  have hfind : selectCols.find? (fun c => !db.schema.contains c) = some "duration" := by
    rw [h]; rfl
  rw [execQuery, refColsOf, find?_append_left (find?_append_left hfind)]
  rfl

theorem save_to_db_schema (db : Db) (vs : List Video) (now : ℚ) :
    (save_to_db db vs now).schema = db.schema := by
  rw [save_to_db]; split <;> rfl

theorem search_eq_nil_of_schema {db : Db} (h : db.schema = initSchema)
    (niche : Option String) (keyword : String) (minScore : Option ℚ)
    (sortBy : String) (nicheData : List (String × List Channel))
    (excluded : List String) (videoType : Option VideoType) :
    search_db_results db niche keyword minScore sortBy nicheData excluded videoType
      = [] := by
  rw [search_db_results]
  cases hb : buildQuery niche keyword minScore nicheData excluded videoType with
  | none => rfl
  | some q =>
    show (match execQuery db q sortBy with
      | Except.error _ => []
      | Except.ok rows => rows) = []
    rw [execQuery_duration h]

theorem dropWhile_isWs_eq_self {l : List Char} (h : ∀ c ∈ l, isWs c = false) :
    l.dropWhile isWs = l := by
  cases l with
  | nil => rfl
  | cons c cs =>
    rw [List.dropWhile_cons, h c (List.mem_cons_self c cs)]
    simp

theorem pyStrip_eq_self {l : List Char} (h : ∀ c ∈ l, isWs c = false) :
    pyStrip l = l := by
  rw [pyStrip, dropWhile_isWs_eq_self h, dropWhile_isWs_eq_self
    (fun c hc => h c (List.mem_reverse.mp hc)), List.reverse_reverse]

theorem pySplitGo_no_ws {l : List Char} (h : ∀ c ∈ l, isWs c = false)
    (acc : List Char) :
    pySplitGo acc l =
      if (acc.reverse ++ l).isEmpty then [] else [acc.reverse ++ l] := by
  induction l generalizing acc with
  | nil => cases acc <;> simp [pySplitGo]
  | cons c cs ih =>
    have hc : isWs c = false := h c (List.mem_cons_self c cs)
    have hcs : ∀ x ∈ cs, isWs x = false := fun x hx => h x (List.mem_cons_of_mem c hx)
    rw [pySplitGo, hc]
    simp only [Bool.false_eq_true, if_false, ih hcs]
    simp [List.reverse_cons, List.append_assoc]

theorem pySplit_single {l : List Char} (hne : l ≠ []) (h : ∀ c ∈ l, isWs c = false) :
    pySplit l = [l] := by
  rw [pySplit, pySplitGo_no_ws h]
  simp [hne]

theorem keywordTokens_single {kw : String} (hne : kw.data ≠ [])
    (h1 : ∀ c ∈ kw.data, isWs c = false)
    (h2 : ∀ c ∈ pyLower kw.data, isWs c = false) :
    keywordTokens kw = [pyLower kw.data] := by
  rw [keywordTokens, pyStrip_eq_self h1]
  exact pySplit_single (by simp [pyLower, hne]) h2

theorem kwActive_of_no_ws {kw : String} (hne : kw.data ≠ [])
    (h1 : ∀ c ∈ kw.data, isWs c = false) : kwActive kw = true := by
  rw [kwActive, pyStrip_eq_self h1]
  simp [List.isEmpty_iff, hne]

/-! ### Claim theorems -/

/-- C9: `compute_outlier_scores` changes only the `outlier_score` field of
each video: with scores erased, output and input are the same list (same
videos, same other fields, same count, same order). -/
theorem claim_C9_theorem (videos : List Video) (m : Metric) :
    (compute_outlier_scores videos m).map stripScore = videos.map stripScore
    ∧ (compute_outlier_scores videos m).length = videos.length := by
  constructor
  · rw [compute_outlier_scores]
    split_ifs with h1 h2 h3
    · rfl
    · rw [List.map_map]; rfl
    · rw [List.map_map]; rfl
    · rw [List.map_map]; rfl
  · rw [compute_outlier_scores]
    split_ifs <;> simp [List.length_map]

/-- C7: on every batch of size < 2, and on every batch whose metric values
are all identical, `compute_outlier_scores` assigns outlier score exactly 0
to every video. -/
theorem claim_C7_theorem (videos : List Video) (m : Metric)
    (h : videos.length < 2
      ∨ ∀ v ∈ videos, ∀ w ∈ videos, metricValue v m = metricValue w m) :
    ∀ v ∈ compute_outlier_scores videos m, v.outlier_score = 0 := by
  intro v hv
  rw [compute_outlier_scores] at hv
  by_cases he : videos.isEmpty
  · rw [if_pos he] at hv
    rw [List.isEmpty_iff.mp he] at hv
    exact absurd hv (List.not_mem_nil v)
  · rw [if_neg he] at hv
    by_cases hlen : (metricValues videos m).length < 2
    · rw [if_pos hlen] at hv
      obtain ⟨w, hw, rfl⟩ := List.mem_map.mp hv
      rfl
    · rw [if_neg hlen] at hv
      have hlen2 : 2 ≤ videos.length := by
        rw [metricValues, List.length_map] at hlen; omega
      rcases h with h | h
      · omega
      · obtain ⟨v0, rest, rfl⟩ : ∃ v0 rest, videos = v0 :: rest := by
          cases videos with
          | nil => exact absurd hlen2 (by norm_num)
          | cons a l => exact ⟨a, l, rfl⟩
        have hvals : ∀ x ∈ metricValues (v0 :: rest) m, x = (metricValue v0 m : ℚ) := by
          intro x hx
          obtain ⟨w, hw, rfl⟩ := List.mem_map.mp hx
          exact_mod_cast h w hw v0 (List.mem_cons_self v0 rest)
        have hmed : medOf (v0 :: rest) m = (metricValue v0 m : ℚ) :=
          median_const (by simp [metricValues]) hvals
        have hmad : madOf (v0 :: rest) m = 0 := by
          rw [madOf]
          apply median_const (by simp [metricValues])
          intro y hy
          obtain ⟨x, hx, rfl⟩ := List.mem_map.mp hy
          rw [hvals x hx, show medOf (v0 :: rest) m = (metricValue v0 m : ℚ) from hmed]
          simp
        rw [if_pos hmad] at hv
        obtain ⟨w, hw, rfl⟩ := List.mem_map.mp hv
        rfl

/-- Witness for C7: a concrete two-video batch with identical view counts
gets score 0. -/
theorem claim_C7_witness :
    ((compute_outlier_scores [mkVid "a" 7, mkVid "b" 7] Metric.views).getD 0
      defVid).outlier_score = 0 :=
  claim_C7_theorem [mkVid "a" 7, mkVid "b" 7] Metric.views
    (Or.inr (by decide)) _ (by decide)

/-- C8: when the storage layer raises an error executing the query,
`search_db_results` catches it and returns the empty list instead of
propagating the exception. -/
theorem claim_C8_theorem (db : Db) (niche : Option String) (keyword : String)
    (minScore : Option ℚ) (sortBy : String)
    (nicheData : List (String × List Channel)) (excluded : List String)
    (videoType : Option VideoType) (q : Query) (e : String)
    (hq : buildQuery niche keyword minScore nicheData excluded videoType = some q)
    (he : execQuery db q sortBy = Except.error e) :
    search_db_results db niche keyword minScore sortBy nicheData excluded videoType
      = [] := by
  rw [search_db_results, hq]
  show (match execQuery db q sortBy with
    | Except.error _ => []
    | Except.ok rows => rows) = []
  rw [he]

/-- Witness for C8: the freshly created schema makes the query error
(missing `duration` column) and the search returns `[]`. -/
theorem claim_C8_witness :
    search_db_results initDb none "" none "views" [] [] none = [] :=
  claim_C8_theorem initDb none "" none "views" [] [] none
    ⟨none, [], none, none⟩ "no such column: duration" (by rfl) (by rfl)

/-- C10: for a niche whose channel list is non-empty but entirely contained
in the excluded set, `search_db_results` returns `[]` without building or
executing any SQL query, whatever the store contents and other filters. -/
theorem claim_C10_theorem (db : Db) (keyword : String) (minScore : Option ℚ)
    (sortBy : String) (nicheData : List (String × List Channel))
    (excluded : List String) (videoType : Option VideoType) (n : String)
    (chans : List Channel)
    (hn : n ≠ "")
    (hlook : nicheData.lookup n = some chans)
    (hne : chans ≠ [])
    (hexc : ∀ c ∈ chans, c.channel_id ∈ excluded) :
    buildQuery (some n) keyword minScore nicheData excluded videoType = none
    ∧ search_db_results db (some n) keyword minScore sortBy nicheData excluded
        videoType = [] := by
  have hdata : n.data.isEmpty = false := by
    cases hd : n.data.isEmpty
    · rfl
    · exact absurd (String.ext ((List.isEmpty_iff.mp hd).trans rfl)) hn
  have hex_ne : excluded ≠ [] := by
    obtain ⟨c0, hc0⟩ := List.exists_mem_of_ne_nil chans hne
    exact List.ne_nil_of_mem (hexc c0 hc0)
  have hfilter : chans.filter
      (fun c => excluded.isEmpty || !(decide (c.channel_id ∈ excluded))) = [] := by
    rw [List.filter_eq_nil_iff]
    intro c hc
    simp [List.isEmpty_iff, hex_ne, hexc c hc]
  have hsel : channelSel (some n) nicheData excluded = none := by
    rw [channelSel]
    simp only [hdata, Bool.false_eq_true, if_false, hlook, hfilter]
    rfl
  have hbq : buildQuery (some n) keyword minScore nicheData excluded videoType
      = none := by
    rw [buildQuery, hsel]
  refine ⟨hbq, ?_⟩
  rw [search_db_results, hbq]

/-- Witness for C10: both channels of the "tech" niche excluded — no query
is built and the search returns `[]` although the store has a row. -/
theorem claim_C10_witness :
    buildQuery (some "tech") "kw" (some 5) nd10 ["c1", "c2"] none = none
    ∧ search_db_results db10 (some "tech") "kw" (some 5) "views" nd10
        ["c1", "c2"] none = [] :=
  claim_C10_theorem db10 "kw" (some 5) "views" nd10 ["c1", "c2"] none "tech"
    [⟨"c1", "Chan One"⟩, ⟨"c2", "Chan Two"⟩]
    (by decide) (by decide) (by decide) (by decide)

/-- C1: the round-trip fails as a code bug.  `save_to_db` does store exactly
one row for the snapshot, with `fetch_date` set to the call time, but
`search_db_results` — whose SELECT references the `duration` column that
`initialize_db` never creates — hits a `sqlite3.Error` on every query
against the created schema and returns `[]`, never the stored snapshot. -/
theorem claim_C1_code_bug :
    (save_to_db initDb [vA] 5).rows = [rowOf vA 5]
    ∧ (rowOf vA 5).fetch_date = 5
    ∧ (execQuery (save_to_db initDb [vA] 5) ⟨none, [], none, none⟩ "views").isOk
        = false
    ∧ search_db_results (save_to_db initDb [vA] 5) none "" none "views" [] []
        none = [] := by
  decide

/-- C4: the WHERE clause `search_db_results` builds from keyword "cat video"
matches exactly as the claim says (both tokens as case-insensitive
substrings: "My Cat Video Compilation" matches, "My Cat Compilation" does
not), but the function itself returns `[]` on every store created by
`initialize_db`, because its SELECT references the missing `duration`
column. -/
theorem claim_C4_code_bug :
    wherePred ⟨none, keywordTokens "cat video", none, none⟩ (rowOf vCatVideo 0)
      = true
    ∧ wherePred ⟨none, keywordTokens "cat video", none, none⟩ (rowOf vCatOnly 0)
      = false
    ∧ search_db_results (save_to_db initDb [vCatVideo, vCatOnly] 0) none
        "cat video" none "views" [] [] none = [] := by
  decide

/-- C2 counterexample: on the spec's worked batch (views 1000, 2000,
1000000) the code assigns C the score 673.15 = round2(0.6745·998000/1000) =
round2(673.151), not the claimed 673.26; A and B do get −0.67 and 0. -/
theorem claim_C2_counterexample :
    (compute_outlier_scores batchABC Metric.views).map (fun v => v.outlier_score)
      = [-0.67, 0, 673.15]
    ∧ ((compute_outlier_scores batchABC Metric.views).getD 2 defVid).outlier_score
      ≠ 673.26 := by
  decide

/-- C2 (amended): for the batch [{A,1000},{B,2000},{C,1000000}] the scorer
assigns −0.67 to A, 0 to B and 673.15 to C; in general, for every batch of
size ≥ 2 with non-zero MAD, each video's score equals
round2(0.6745·(value − median)/MAD). -/
theorem claim_C2_amended :
    ((compute_outlier_scores batchABC Metric.views).map (fun v => v.outlier_score)
      = [-0.67, 0, 673.15])
    ∧ ∀ (videos : List Video) (m : Metric), 2 ≤ videos.length →
        madOf videos m ≠ 0 → ∀ i : ℕ, i < videos.length →
        ((compute_outlier_scores videos m).getD i defVid).outlier_score
          = round2 (0.6745 * ((metricValue (videos.getD i defVid) m : ℚ)
              - medOf videos m) / madOf videos m) := by
  constructor
  · decide
  · intro videos m h2 hmad i hi
    rw [compute_eq_map h2 hmad, getD_map_video hi]

/-- Witness for C2 (amended), instantiated at the worked batch and video C. -/
theorem claim_C2_witness :
    ((compute_outlier_scores batchABC Metric.views).getD 2 defVid).outlier_score
      = round2 (0.6745 * ((metricValue (batchABC.getD 2 defVid) Metric.views : ℚ)
          - medOf batchABC Metric.views) / madOf batchABC Metric.views) :=
  claim_C2_amended.2 batchABC Metric.views (by decide) (by decide) 2 (by decide)

/-- C6 counterexample: in the batch with views [0, 1000, 1001, 2000]
(median 1000.5, MAD 500) the video at 1001 is strictly above the median and
the one at 1000 is below it, yet both scores round to 0, so the strictly-
greater claim fails. -/
theorem claim_C6_counterexample :
    2 ≤ batchWXYZ.length
    ∧ madOf batchWXYZ Metric.views ≠ 0
    ∧ medOf batchWXYZ Metric.views
        < (metricValue (batchWXYZ.getD 2 defVid) Metric.views : ℚ)
    ∧ (metricValue (batchWXYZ.getD 1 defVid) Metric.views : ℚ)
        ≤ medOf batchWXYZ Metric.views
    ∧ ¬ (((compute_outlier_scores batchWXYZ Metric.views).getD 1 defVid).outlier_score
        < ((compute_outlier_scores batchWXYZ Metric.views).getD 2 defVid).outlier_score) := by
  decide

/-- C6 (amended): for every batch of size ≥ 2 with non-zero MAD, a video
with metric value strictly above the median scores at least as high as
(≥, not necessarily strictly above) any video with value at or below the
median — the 2-decimal rounding can collapse both scores to 0. -/
theorem claim_C6_amended (videos : List Video) (m : Metric) (i j : ℕ)
    (hlen : 2 ≤ videos.length) (hmad : madOf videos m ≠ 0)
    (hi : i < videos.length) (hj : j < videos.length)
    (hx : medOf videos m < (metricValue (videos.getD i defVid) m : ℚ))
    (hy : (metricValue (videos.getD j defVid) m : ℚ) ≤ medOf videos m) :
    ((compute_outlier_scores videos m).getD j defVid).outlier_score
      ≤ ((compute_outlier_scores videos m).getD i defVid).outlier_score := by
  have hmadpos : 0 < madOf videos m := by
    have h0 : 0 ≤ madOf videos m := by
      rw [madOf]
      apply median_nonneg
      intro x hx'
      obtain ⟨y, hy', rfl⟩ := List.mem_map.mp hx'
      exact abs_nonneg _
    exact lt_of_le_of_ne h0 (Ne.symm hmad)
  rw [compute_eq_map hlen hmad, getD_map_video hi, getD_map_video hj]
  have hqi : 0 ≤ 0.6745 * ((metricValue (videos.getD i defVid) m : ℚ)
      - medOf videos m) / madOf videos m := by
    apply div_nonneg _ (le_of_lt hmadpos)
    exact mul_nonneg (by norm_num) (le_of_lt (sub_pos.mpr hx))
  have hqj : 0.6745 * ((metricValue (videos.getD j defVid) m : ℚ)
      - medOf videos m) / madOf videos m ≤ 0 := by
    apply div_nonpos_iff.mpr
    exact Or.inr ⟨mul_nonpos_of_nonneg_of_nonpos (by norm_num)
      (sub_nonpos.mpr hy), le_of_lt hmadpos⟩
  exact le_trans (round2_nonpos hqj) (round2_nonneg hqi)

/-- Witness for C6 (amended): views [0, 1000, 2000]; the video at 2000 is
above the median 1000, the one at 1000 is at it, and their scores compare. -/
theorem claim_C6_witness :
    ((compute_outlier_scores batchPQR Metric.views).getD 1 defVid).outlier_score
      ≤ ((compute_outlier_scores batchPQR Metric.views).getD 2 defVid).outlier_score :=
  claim_C6_amended batchPQR Metric.views 2 1 (by decide) (by decide) (by decide)
    (by decide) (by decide) (by decide)

/-- C5 counterexample: with max_age 7 days, a snapshot that is 7 days and
1 hour old satisfies the claim's condition now − fetched_at > max_age, yet
`needs_refresh` returns false, because the code compares whole
`timedelta.days` (the floored day count, here 7) with `max_age_days`. -/
theorem claim_C5_counterexample :
    needs_refresh 0 [⟨some (some (-(7 * 86400 + 3600)))⟩] 7 = false
    ∧ (7 * 86400 : ℚ) < 0 - (-(7 * 86400 + 3600)) := by
  decide

/-- C5 (amended): `needs_refresh` returns true iff the batch is empty, or
some item's `fetch_date` is missing, or unparseable, or the age
now − fetched_at truncated to whole days (`timedelta.days`) strictly
exceeds `max_age_days`; in particular an item exactly N+1 days old is stale
and one exactly N−1 days old is not. -/
theorem claim_C5_amended :
    (∀ (now : ℚ) (data : List CacheItem) (N : ℤ),
      needs_refresh now data N = true ↔
        data = [] ∨ ∃ item ∈ data, item.fetch_date = none
          ∨ item.fetch_date = some none
          ∨ ∃ t, item.fetch_date = some (some t)
              ∧ N < Int.floor ((now - t) / 86400))
    ∧ (∀ (now : ℚ) (N : ℤ),
        needs_refresh now [⟨some (some (now - ((N : ℚ) + 1) * 86400))⟩] N = true
        ∧ needs_refresh now [⟨some (some (now - ((N : ℚ) - 1) * 86400))⟩] N
            = false) := by
  constructor
  · intro now data N
    rw [needs_refresh]
    by_cases hd : data.isEmpty
    · rw [if_pos hd]
      simp [List.isEmpty_iff.mp hd]
    · rw [if_neg hd]
      rw [List.any_eq_true]
      constructor
      · rintro ⟨item, hmem, hp⟩
        right
        refine ⟨item, hmem, ?_⟩
        cases hfd : item.fetch_date with
        | none => exact Or.inl rfl
        | some o =>
          cases o with
          | none => exact Or.inr (Or.inl rfl)
          | some t =>
            rw [hfd] at hp
            exact Or.inr (Or.inr ⟨t, rfl, of_decide_eq_true hp⟩)
      · rintro (hnil | ⟨item, hmem, hcase⟩)
        · exact absurd (List.isEmpty_iff.mpr hnil) hd
        · refine ⟨item, hmem, ?_⟩
          rcases hcase with h1 | h1 | ⟨t, h1, h2⟩
          · rw [h1]
          · rw [h1]
          · rw [h1]
            exact decide_eq_true h2
  · intro now N
    have e1 : now - (now - ((N : ℚ) + 1) * 86400) = ((N : ℚ) + 1) * 86400 := by
      ring
    have e2 : now - (now - ((N : ℚ) - 1) * 86400) = ((N : ℚ) - 1) * 86400 := by
      ring
    have f1 : Int.floor ((((N : ℚ) + 1) * 86400) / 86400) = N + 1 := by
      rw [mul_div_cancel_right₀ _ (by norm_num : (86400 : ℚ) ≠ 0)]
      rw [show ((N : ℚ) + 1) = ((N + 1 : ℤ) : ℚ) by push_cast; ring]
      exact Int.floor_intCast (N + 1)
    have f2 : Int.floor ((((N : ℚ) - 1) * 86400) / 86400) = N - 1 := by
      rw [mul_div_cancel_right₀ _ (by norm_num : (86400 : ℚ) ≠ 0)]
      rw [show ((N : ℚ) - 1) = ((N - 1 : ℤ) : ℚ) by push_cast; ring]
      exact Int.floor_intCast (N - 1)
    constructor
    · rw [needs_refresh]
      simp only [List.isEmpty_cons, Bool.false_eq_true, if_false, List.any_cons,
        List.any_nil, Bool.or_false]
      rw [e1, f1]
      simp
    · rw [needs_refresh]
      simp only [List.isEmpty_cons, Bool.false_eq_true, if_false, List.any_cons,
        List.any_nil, Bool.or_false]
      rw [e2, f2]
      simp

